import Mathlib

/-
Verification of the BLE GATT characteristic engine (src/characteristic.c of
bluez_inc) against its natural-language specification.

The C file is shallowly embedded as follows.
- `Characteristic` mirrors `struct binc_characteristic`.  Pointer-valued
  fields (uuid, callbacks, ...) become `Option` values, with `none` standing
  for NULL; `g_new0` zero-initialisation becomes the explicit initial field
  values in `binc_characteristic_create`.
- The GDBus subscription id `characteristic_prop_changed` is a `Nat`; the
  value 0 means "no live subscription" exactly as in the C code.
- Stateful operations become pure functions `Characteristic → ... → Characteristic × List Action`
  where `Action` records the externally visible effects (D-Bus calls,
  signal subscribe/unsubscribe, callback invocations) in program order.
- Operations whose `g_assert` can fail on their inputs return `Option ...`:
  `none` models the fatal assertion failure (abort).
- Asynchronous completion handlers (`binc_internal_char_read_cb`, ...)
  take the finished call result as an `Except GError ...`, since
  `g_dbus_connection_call_finish` yields exactly one of a value or an error.
- The `(ay)` wire payload of ReadValue / Value events is modelled as the
  byte list it decodes to (`List Nat`), the decode being the identity.
-/

namespace Binc

/-- Modelled from the spec: the GATT property bit constants are declared in
`characteristic.h`, which is not part of src/; the spec fixes the token
order broadcast, read, write-without-response, write, notify, indicate,
authenticated-signed-writes, which carry the standard Bluetooth GATT
characteristic property bits. -/
def GATT_CHR_PROP_BROADCAST : Nat := 1

/-- Read property bit (see `GATT_CHR_PROP_BROADCAST`). -/
def GATT_CHR_PROP_READ : Nat := 2

/-- Write-without-response property bit. -/
def GATT_CHR_PROP_WRITE_WITHOUT_RESP : Nat := 4

/-- Write property bit. -/
def GATT_CHR_PROP_WRITE : Nat := 8

/-- Notify property bit. -/
def GATT_CHR_PROP_NOTIFY : Nat := 16

/-- Indicate property bit. -/
def GATT_CHR_PROP_INDICATE : Nat := 32

/-- Authenticated-signed-writes property bit. -/
def GATT_CHR_PROP_AUTH : Nat := 64

/-- Modelled from the spec: the write kind distinguishing acknowledged and
unacknowledged writes (`WriteType` in the missing header). -/
inductive WriteType where
  | withResponse
  | withoutResponse
deriving DecidableEq

/-- Transport error, mirroring the `GError` fields the code reads. -/
structure GError where
  code : Int
  message : String
deriving DecidableEq

/-- Owning device: the code only reads its D-Bus connection via
`binc_device_get_dbus_connection`. -/
structure Device where
  id : Nat
  dbus_connection : Nat
deriving DecidableEq

/-- Externally visible effect of one step of the engine, in program order.
Callback invocations carry the identity of the invoked function pointer. -/
inductive Action where
  | signalSubscribe (handle : Nat)
  | signalUnsubscribe (handle : Nat)
  | dbusCall (method : String)
  | invokeReadCb (cb : Nat) (payload : Option (List Nat)) (err : Option GError)
  | invokeWriteCb (cb : Nat) (err : Option GError)
  | invokeNotifyStateCb (cb : Nat) (err : Option GError)
  | invokeNotifyCb (cb : Nat) (payload : List Nat)
deriving DecidableEq

/-- Mirror of `struct binc_characteristic`.  Function-pointer fields are
`Option Nat` (`none` = NULL); `characteristic_prop_changed` is the GDBus
subscription id, 0 when unsubscribed. -/
structure Characteristic where
  device : Device
  connection : Nat
  path : String
  uuid : Option String
  service_path : Option String
  service_uuid : Option String
  notifying : Bool
  flags : List String
  properties : Nat
  characteristic_prop_changed : Nat
  notify_state_callback : Option Nat
  on_read_callback : Option Nat
  on_write_callback : Option Nat
  on_notify_callback : Option Nat
deriving DecidableEq

/-- `binc_characteristic_create`: `g_new0` zeroes every field, then the
device back-reference, its D-Bus connection and the object path are set. -/
def binc_characteristic_create (device : Device) (path : String) : Characteristic :=
  { device := device
    connection := device.dbus_connection
    path := path
    uuid := none
    service_path := none
    service_uuid := none
    notifying := false
    flags := []
    properties := 0
    characteristic_prop_changed := 0
    notify_state_callback := none
    on_read_callback := none
    on_write_callback := none
    on_notify_callback := none }

/-- Body of the if/else-if chain of `binc_characteristic_flags_to_int`:
the bit value added for one flag token; unrecognized tokens add 0. -/
def flagBitValue (property : String) : Nat :=
  if property = "broadcast" then GATT_CHR_PROP_BROADCAST
  else if property = "read" then GATT_CHR_PROP_READ
  else if property = "write-without-response" then GATT_CHR_PROP_WRITE_WITHOUT_RESP
  else if property = "write" then GATT_CHR_PROP_WRITE
  else if property = "notify" then GATT_CHR_PROP_NOTIFY
  else if property = "indicate" then GATT_CHR_PROP_INDICATE
  else if property = "authenticated-signed-writes" then GATT_CHR_PROP_AUTH
  else 0

/-- `binc_characteristic_flags_to_int`: iterates over the flag list and
adds (C `+=`) the bit value of each token to the accumulator. -/
def binc_characteristic_flags_to_int (flags : List String) : Nat :=
  flags.foldl (fun result property => result + flagBitValue property) 0

/-- `binc_characteristic_set_flags`: `g_assert(flags != NULL)` — an empty
GList is the NULL pointer, so the empty list aborts (`none`).  Otherwise the
previous list is freed, the new list stored, and `properties` recomputed. -/
def binc_characteristic_set_flags (c : Characteristic) (flags : List String) :
    Option Characteristic :=
  match flags with
  | [] => none
  | _ => some { c with flags := flags
                       properties := binc_characteristic_flags_to_int flags }

/-- `binc_characteristic_set_properties`: overwrites the bitmask directly. -/
def binc_characteristic_set_properties (c : Characteristic) (properties : Nat) :
    Characteristic :=
  { c with properties := properties }

/-- `binc_characteristic_set_uuid` (non-null asserted; String is never NULL). -/
def binc_characteristic_set_uuid (c : Characteristic) (uuid : String) : Characteristic :=
  { c with uuid := some uuid }

/-- `binc_characteristic_set_service_uuid`. -/
def binc_characteristic_set_service_uuid (c : Characteristic) (service_uuid : String) :
    Characteristic :=
  { c with service_uuid := some service_uuid }

/-- `binc_characteristic_set_service_path`. -/
def binc_characteristic_set_service_path (c : Characteristic) (service_path : String) :
    Characteristic :=
  { c with service_path := some service_path }

/-- `binc_characteristic_supports_read`. -/
def binc_characteristic_supports_read (c : Characteristic) : Bool :=
  c.properties &&& GATT_CHR_PROP_READ > 0

/-- `binc_characteristic_supports_write`. -/
def binc_characteristic_supports_write (c : Characteristic) (writeType : WriteType) : Bool :=
  match writeType with
  | WriteType.withResponse => c.properties &&& GATT_CHR_PROP_WRITE > 0
  | WriteType.withoutResponse => c.properties &&& GATT_CHR_PROP_WRITE_WITHOUT_RESP > 0

/-- `binc_characteristic_supports_notify`. -/
def binc_characteristic_supports_notify (c : Characteristic) : Bool :=
  (c.properties &&& GATT_CHR_PROP_INDICATE > 0) ||
  (c.properties &&& GATT_CHR_PROP_NOTIFY > 0)

/-- `binc_characteristic_is_notifying`. -/
def binc_characteristic_is_notifying (c : Characteristic) : Bool :=
  c.notifying

/-- `binc_characteristic_set_read_callback`: `g_assert(callback != NULL)`,
so a NULL callback aborts; otherwise the single slot is overwritten. -/
def binc_characteristic_set_read_callback (c : Characteristic) (callback : Option Nat) :
    Option Characteristic :=
  match callback with
  | some _ => some { c with on_read_callback := callback }
  | none => none

/-- `binc_characteristic_set_write_callback` (same NULL assertion). -/
def binc_characteristic_set_write_callback (c : Characteristic) (callback : Option Nat) :
    Option Characteristic :=
  match callback with
  | some _ => some { c with on_write_callback := callback }
  | none => none

/-- `binc_characteristic_set_notify_callback` (same NULL assertion). -/
def binc_characteristic_set_notify_callback (c : Characteristic) (callback : Option Nat) :
    Option Characteristic :=
  match callback with
  | some _ => some { c with on_notify_callback := callback }
  | none => none

/-- `binc_characteristic_set_notifying_state_change_callback` (same NULL
assertion). -/
def binc_characteristic_set_notifying_state_change_callback (c : Characteristic)
    (callback : Option Nat) : Option Characteristic :=
  match callback with
  | some _ => some { c with notify_state_callback := callback }
  | none => none

/-- `binc_characteristic_read`: asserts the read property bit, then issues
the asynchronous ReadValue call; the state is untouched. -/
def binc_characteristic_read (c : Characteristic) :
    Option (Characteristic × List Action) :=
  if c.properties &&& GATT_CHR_PROP_READ > 0 then
    some (c, [Action.dbusCall "ReadValue"])
  else none

/-- `binc_characteristic_write`: asserts `binc_characteristic_supports_write`,
then issues the asynchronous WriteValue call; the state is untouched. -/
def binc_characteristic_write (c : Characteristic) (byteArray : List Nat)
    (writeType : WriteType) : Option (Characteristic × List Action) :=
  if binc_characteristic_supports_write c writeType then
    some (c, [Action.dbusCall "WriteValue"])
  else none

/-- `binc_internal_char_read_cb`: on success the `(ay)` reply is decoded to
its byte sequence and passed to the read callback with a NULL error; on
failure the callback gets a NULL byte array and the error.  A NULL callback
slot means nothing is invoked. -/
def binc_internal_char_read_cb (c : Characteristic)
    (result : Except GError (List Nat)) : Characteristic × List Action :=
  match result with
  | Except.ok byteArray =>
    match c.on_read_callback with
    | some cb => (c, [Action.invokeReadCb cb (some byteArray) none])
    | none => (c, [])
  | Except.error e =>
    match c.on_read_callback with
    | some cb => (c, [Action.invokeReadCb cb none (some e)])
    | none => (c, [])

/-- `binc_internal_char_write_cb`: the write callback is invoked with the
finished call's error (NULL on success); a NULL slot invokes nothing. -/
def binc_internal_char_write_cb (c : Characteristic)
    (result : Except GError Unit) : Characteristic × List Action :=
  match result with
  | Except.ok _ =>
    match c.on_write_callback with
    | some cb => (c, [Action.invokeWriteCb cb none])
    | none => (c, [])
  | Except.error e =>
    match c.on_write_callback with
    | some cb => (c, [Action.invokeWriteCb cb (some e)])
    | none => (c, [])

/-- One changed property delivered by a PropertiesChanged event.  The
handler dispatches on the property name, so the name is part of the
constructor; `other` covers names the handler ignores. -/
inductive PropChange where
  | notifying (b : Bool)
  | value (byteArray : List Nat)
  | other (propName : String)
deriving DecidableEq

/-- D-Bus dictionary key of one changed property. -/
def PropChange.name : PropChange → String
  | PropChange.notifying _ => "Notifying"
  | PropChange.value _ => "Value"
  | PropChange.other s => s

/-- Body of the `g_variant_iter_loop` in
`binc_internal_signal_characteristic_changed` for a single changed
property: Notifying updates `notifying`, invokes the notify-state callback
with a NULL error, and when now false unsubscribes (guarded on a non-zero
handle) and clears the handle; Value decodes the payload and invokes the
value-notification callback; other names are ignored. -/
def binc_internal_handle_property (c : Characteristic) (p : PropChange) :
    Characteristic × List Action :=
  match p with
  | PropChange.notifying b =>
    let c1 : Characteristic := { c with notifying := b }
    let acts : List Action :=
      match c1.notify_state_callback with
      | some cb => [Action.invokeNotifyStateCb cb none]
      | none => []
    if c1.notifying = false then
      if c1.characteristic_prop_changed ≠ 0 then
        ({ c1 with characteristic_prop_changed := 0 },
          acts ++ [Action.signalUnsubscribe c1.characteristic_prop_changed])
      else (c1, acts)
    else (c1, acts)
  | PropChange.value byteArray =>
    match c.on_notify_callback with
    | some cb => (c, [Action.invokeNotifyCb cb byteArray])
    | none => (c, [])
  | PropChange.other _ => (c, [])

/-- `binc_internal_signal_characteristic_changed`: iterates over the changed
properties of one PropertiesChanged event in order. -/
def binc_internal_signal_characteristic_changed :
    Characteristic → List PropChange → Characteristic × List Action
  | c, [] => (c, [])
  | c, p :: rest =>
    let step := binc_internal_handle_property c p
    let next := binc_internal_signal_characteristic_changed step.1 rest
    (next.1, step.2 ++ next.2)

/-- `binc_characteristic_start_notify`: asserts notify support, then
subscribes to PropertiesChanged (storing the fresh subscription id) and
only afterwards issues the asynchronous StartNotify call. -/
def binc_characteristic_start_notify (c : Characteristic) (newHandle : Nat) :
    Option (Characteristic × List Action) :=
  if binc_characteristic_supports_notify c then
    some ({ c with characteristic_prop_changed := newHandle },
      [Action.signalSubscribe newHandle, Action.dbusCall "StartNotify"])
  else none

/-- `binc_internal_char_start_notify_cb`: on failure the notify-state
callback (if registered) receives the error; the state — in particular the
subscription handle — is untouched. -/
def binc_internal_char_start_notify_cb (c : Characteristic)
    (result : Except GError Unit) : Characteristic × List Action :=
  match result with
  | Except.ok _ => (c, [])
  | Except.error e =>
    match c.notify_state_callback with
    | some cb => (c, [Action.invokeNotifyStateCb cb (some e)])
    | none => (c, [])

/-- `binc_characteristic_stop_notify`: asserts the indicate-or-notify
property bits, then issues the asynchronous StopNotify call; it does not
touch the subscription handle or `notifying`. -/
def binc_characteristic_stop_notify (c : Characteristic) :
    Option (Characteristic × List Action) :=
  if (c.properties &&& GATT_CHR_PROP_INDICATE > 0) ||
     (c.properties &&& GATT_CHR_PROP_NOTIFY > 0) then
    some (c, [Action.dbusCall "StopNotify"])
  else none

/-- `binc_internal_char_stop_notify_cb`: on failure the notify-state
callback (if registered) receives the error; the state is untouched. -/
def binc_internal_char_stop_notify_cb (c : Characteristic)
    (result : Except GError Unit) : Characteristic × List Action :=
  match result with
  | Except.ok _ => (c, [])
  | Except.error e =>
    match c.notify_state_callback with
    | some cb => (c, [Action.invokeNotifyStateCb cb (some e)])
    | none => (c, [])

/-- `binc_characteristic_free`: unsubscribes the property-change signal only
when the handle is non-zero, then releases the owned strings and the
struct.  Only the emitted actions are kept, the object is gone. -/
def binc_characteristic_free (c : Characteristic) : List Action :=
  if c.characteristic_prop_changed ≠ 0 then
    [Action.signalUnsubscribe c.characteristic_prop_changed]
  else []

/-- Reachable characteristic states: closed under creation, the discovery
setters, the three request operations with their completion handlers, and
delivery of PropertiesChanged events.  An event can only be delivered while
the signal subscription is live (handle non-zero); GDBus subscription ids
are positive, hence `newHandle ≠ 0`; a D-Bus `a{sv}` dictionary has
pairwise distinct keys, hence the `Nodup` condition on property names. -/
inductive Reach : Characteristic → Prop where
  | create (d : Device) (path : String) :
      Reach (binc_characteristic_create d path)
  | set_uuid {c : Characteristic} (u : String) :
      Reach c → Reach (binc_characteristic_set_uuid c u)
  | set_service_uuid {c : Characteristic} (u : String) :
      Reach c → Reach (binc_characteristic_set_service_uuid c u)
  | set_service_path {c : Characteristic} (p : String) :
      Reach c → Reach (binc_characteristic_set_service_path c p)
  | set_flags {c c' : Characteristic} (fl : List String) :
      Reach c → binc_characteristic_set_flags c fl = some c' → Reach c'
  | set_properties {c : Characteristic} (p : Nat) :
      Reach c → Reach (binc_characteristic_set_properties c p)
  | set_read_callback {c c' : Characteristic} (cb : Option Nat) :
      Reach c → binc_characteristic_set_read_callback c cb = some c' → Reach c'
  | set_write_callback {c c' : Characteristic} (cb : Option Nat) :
      Reach c → binc_characteristic_set_write_callback c cb = some c' → Reach c'
  | set_notify_callback {c c' : Characteristic} (cb : Option Nat) :
      Reach c → binc_characteristic_set_notify_callback c cb = some c' → Reach c'
  | set_notify_state_callback {c c' : Characteristic} (cb : Option Nat) :
      Reach c →
      binc_characteristic_set_notifying_state_change_callback c cb = some c' → Reach c'
  | read {c c' : Characteristic} {acts : List Action} :
      Reach c → binc_characteristic_read c = some (c', acts) → Reach c'
  | write {c c' : Characteristic} {acts : List Action}
      (byteArray : List Nat) (wt : WriteType) :
      Reach c → binc_characteristic_write c byteArray wt = some (c', acts) → Reach c'
  | read_cb {c : Characteristic} (result : Except GError (List Nat)) :
      Reach c → Reach (binc_internal_char_read_cb c result).1
  | write_cb {c : Characteristic} (result : Except GError Unit) :
      Reach c → Reach (binc_internal_char_write_cb c result).1
  | start_notify {c c' : Characteristic} {acts : List Action} (newHandle : Nat) :
      Reach c → newHandle ≠ 0 →
      binc_characteristic_start_notify c newHandle = some (c', acts) → Reach c'
  | start_notify_cb {c : Characteristic} (result : Except GError Unit) :
      Reach c → Reach (binc_internal_char_start_notify_cb c result).1
  | stop_notify {c c' : Characteristic} {acts : List Action} :
      Reach c → binc_characteristic_stop_notify c = some (c', acts) → Reach c'
  | stop_notify_cb {c : Characteristic} (result : Except GError Unit) :
      Reach c → Reach (binc_internal_char_stop_notify_cb c result).1
  | signal {c : Characteristic} (props : List PropChange) :
      Reach c → c.characteristic_prop_changed ≠ 0 →
      (props.map PropChange.name).Nodup →
      Reach (binc_internal_signal_characteristic_changed c props).1

/-- Following the spec's words, for the refinement comparison of C3: the
bitwise OR of the fixed per-flag bit values for the recognized tokens
present in the flag set, independent of token order; unrecognized tokens
contribute zero (only the seven recognized tokens appear). -/
def spec_properties (flags : List String) : Nat :=
  (if "broadcast" ∈ flags then GATT_CHR_PROP_BROADCAST else 0) |||
  (if "read" ∈ flags then GATT_CHR_PROP_READ else 0) |||
  (if "write-without-response" ∈ flags then GATT_CHR_PROP_WRITE_WITHOUT_RESP else 0) |||
  (if "write" ∈ flags then GATT_CHR_PROP_WRITE else 0) |||
  (if "notify" ∈ flags then GATT_CHR_PROP_NOTIFY else 0) |||
  (if "indicate" ∈ flags then GATT_CHR_PROP_INDICATE else 0) |||
  (if "authenticated-signed-writes" ∈ flags then GATT_CHR_PROP_AUTH else 0)

/-- Sum counterpart of `spec_properties`, used as a stepping stone between
the accumulating loop of the source and the bitwise-OR form of the spec. -/
def sum_properties (flags : List String) : Nat :=
  (if "broadcast" ∈ flags then GATT_CHR_PROP_BROADCAST else 0) +
  (if "read" ∈ flags then GATT_CHR_PROP_READ else 0) +
  (if "write-without-response" ∈ flags then GATT_CHR_PROP_WRITE_WITHOUT_RESP else 0) +
  (if "write" ∈ flags then GATT_CHR_PROP_WRITE else 0) +
  (if "notify" ∈ flags then GATT_CHR_PROP_NOTIFY else 0) +
  (if "indicate" ∈ flags then GATT_CHR_PROP_INDICATE else 0) +
  (if "authenticated-signed-writes" ∈ flags then GATT_CHR_PROP_AUTH else 0)

/-- Concrete device used to instantiate the theorems on closed inputs. -/
def demoDevice : Device :=
  { id := 1, dbus_connection := 7 }

/-- Freshly created characteristic on a concrete path. -/
def demoC0 : Characteristic :=
  binc_characteristic_create demoDevice "/org/bluez/hci0/dev00/service01/char002"

/-- Notify-capable characteristic, as produced by `set_flags ["notify"]`. -/
def demoNotifyCapable : Characteristic :=
  { demoC0 with flags := ["notify"], properties := 16 }

/-- State after a successful `start_notify` handed subscription id 5. -/
def demoSubscribed : Characteristic :=
  { demoNotifyCapable with characteristic_prop_changed := 5 }

/-- State after the remote reported Notifying = true. -/
def demoNotifying : Characteristic :=
  { demoSubscribed with notifying := true }

/-- Fresh characteristic with a read callback registered in slot 3. -/
def demoWithReadCb : Characteristic :=
  { demoC0 with on_read_callback := some 3 }

/-- Subscribed characteristic with a notify-state callback in slot 9. -/
def demoWithStateCb : Characteristic :=
  { demoSubscribed with notify_state_callback := some 9 }

/-- Concrete transport error used in the closed instances. -/
def demoErr : GError :=
  { code := 14, message := "le-connection-abort-by-local" }

lemma flags_to_int_acc (l : List String) (a : Nat) :
    List.foldl (fun result property => result + flagBitValue property) a l =
      a + List.foldl (fun result property => result + flagBitValue property) 0 l := by
  induction l generalizing a with
  | nil => simp
  | cons t rest ih =>
    simp only [List.foldl_cons]
    rw [ih (a + flagBitValue t), ih (0 + flagBitValue t)]
    omega

lemma flags_to_int_cons (t : String) (rest : List String) :
    binc_characteristic_flags_to_int (t :: rest) =
      flagBitValue t + binc_characteristic_flags_to_int rest := by
  unfold binc_characteristic_flags_to_int
  simp only [List.foldl_cons]
  rw [flags_to_int_acc]
  omega

lemma flags_to_int_eq_sum_map (fl : List String) :
    binc_characteristic_flags_to_int fl = (fl.map flagBitValue).sum := by
  induction fl with
  | nil => rfl
  | cons t rest ih => rw [flags_to_int_cons, ih, List.map_cons, List.sum_cons]

/-- The accumulating loop is order-independent: any permutation of the flag
list yields the same bitmask. -/
lemma flags_to_int_perm {fl1 fl2 : List String} (h : fl1.Perm fl2) :
    binc_characteristic_flags_to_int fl1 = binc_characteristic_flags_to_int fl2 := by
  rw [flags_to_int_eq_sum_map, flags_to_int_eq_sum_map]
  exact List.Perm.sum_eq (List.Perm.map flagBitValue h)

/-- For a duplicate-free flag list the accumulating sum of the source equals
the per-token membership sum. -/
lemma flags_to_int_nodup_sum (fl : List String) (h : fl.Nodup) :
    binc_characteristic_flags_to_int fl = sum_properties fl := by
  induction fl with
  | nil => rfl
  | cons t rest ih =>
    rcases List.nodup_cons.mp h with ⟨hnotin, hrest⟩
    have hr := ih hrest
    rw [flags_to_int_cons, hr]
    by_cases h1 : t = "broadcast"
    · subst h1
      simp only [sum_properties, flagBitValue]
      simp [hnotin]
      omega
    · by_cases h2 : t = "read"
      · subst h2
        simp only [sum_properties, flagBitValue]
        simp [hnotin]
        omega
      · by_cases h3 : t = "write-without-response"
        · subst h3
          simp only [sum_properties, flagBitValue]
          simp [hnotin]
          omega
        · by_cases h4 : t = "write"
          · subst h4
            simp only [sum_properties, flagBitValue]
            simp [hnotin]
            omega
          · by_cases h5 : t = "notify"
            · subst h5
              simp only [sum_properties, flagBitValue]
              simp [hnotin]
              omega
            · by_cases h6 : t = "indicate"
              · subst h6
                simp only [sum_properties, flagBitValue]
                simp [hnotin]
                omega
              · by_cases h7 : t = "authenticated-signed-writes"
                · subst h7
                  simp only [sum_properties, flagBitValue]
                  simp [hnotin]
                  omega
                · have hb : flagBitValue t = 0 := by
                    simp [flagBitValue, h1, h2, h3, h4, h5, h6, h7]
                  rw [hb]
                  simp only [sum_properties, List.mem_cons]
                  simp [Ne.symm h1, Ne.symm h2, Ne.symm h3, Ne.symm h4,
                    Ne.symm h5, Ne.symm h6, Ne.symm h7]

lemma cond_sum_eq_cond_or (b1 b2 b3 b4 b5 b6 b7 : Bool) :
    (cond b1 1 0) + (cond b2 2 0) + (cond b3 4 0) + (cond b4 8 0) +
      (cond b5 16 0) + (cond b6 32 0) + (cond b7 64 0) =
    (cond b1 1 0) ||| (cond b2 2 0) ||| (cond b3 4 0) ||| (cond b4 8 0) |||
      (cond b5 16 0) ||| (cond b6 32 0) ||| (cond b7 64 0) := by
  cases b1 <;> cases b2 <;> cases b3 <;> cases b4 <;> cases b5 <;> cases b6 <;>
    cases b7 <;> decide

/-- The membership sum coincides with the membership OR: the seven
recognized tokens carry pairwise disjoint bits. -/
lemma sum_properties_eq_spec (fl : List String) :
    sum_properties fl = spec_properties fl := by
  unfold sum_properties spec_properties
  unfold GATT_CHR_PROP_BROADCAST GATT_CHR_PROP_READ GATT_CHR_PROP_WRITE_WITHOUT_RESP
    GATT_CHR_PROP_WRITE GATT_CHR_PROP_NOTIFY GATT_CHR_PROP_INDICATE GATT_CHR_PROP_AUTH
  by_cases hb1 : "broadcast" ∈ fl <;>
    by_cases hb2 : "read" ∈ fl <;>
    by_cases hb3 : "write-without-response" ∈ fl <;>
    by_cases hb4 : "write" ∈ fl <;>
    by_cases hb5 : "notify" ∈ fl <;>
    by_cases hb6 : "indicate" ∈ fl <;>
    by_cases hb7 : "authenticated-signed-writes" ∈ fl <;>
    simp [hb1, hb2, hb3, hb4, hb5, hb6, hb7]

/-- Main bridge for C3: on duplicate-free flag lists the source's
accumulating sum is exactly the spec's bitwise OR. -/
lemma flags_to_int_nodup_eq_spec (fl : List String) (h : fl.Nodup) :
    binc_characteristic_flags_to_int fl = spec_properties fl := by
  rw [flags_to_int_nodup_sum fl h, sum_properties_eq_spec]

lemma set_flags_some {c c' : Characteristic} {fl : List String}
    (h : binc_characteristic_set_flags c fl = some c') :
    c' = { c with flags := fl, properties := binc_characteristic_flags_to_int fl } := by
  rcases fl with _ | ⟨t, ts⟩
  · simp [binc_characteristic_set_flags] at h
  · simp only [binc_characteristic_set_flags, Option.some.injEq] at h
    exact h.symm

lemma set_read_callback_some {c c' : Characteristic} {cb : Option Nat}
    (h : binc_characteristic_set_read_callback c cb = some c') :
    c' = { c with on_read_callback := cb } := by
  rcases cb with _ | k
  · simp [binc_characteristic_set_read_callback] at h
  · simp only [binc_characteristic_set_read_callback, Option.some.injEq] at h
    exact h.symm

lemma set_write_callback_some {c c' : Characteristic} {cb : Option Nat}
    (h : binc_characteristic_set_write_callback c cb = some c') :
    c' = { c with on_write_callback := cb } := by
  rcases cb with _ | k
  · simp [binc_characteristic_set_write_callback] at h
  · simp only [binc_characteristic_set_write_callback, Option.some.injEq] at h
    exact h.symm

lemma set_notify_callback_some {c c' : Characteristic} {cb : Option Nat}
    (h : binc_characteristic_set_notify_callback c cb = some c') :
    c' = { c with on_notify_callback := cb } := by
  rcases cb with _ | k
  · simp [binc_characteristic_set_notify_callback] at h
  · simp only [binc_characteristic_set_notify_callback, Option.some.injEq] at h
    exact h.symm

lemma set_notify_state_callback_some {c c' : Characteristic} {cb : Option Nat}
    (h : binc_characteristic_set_notifying_state_change_callback c cb = some c') :
    c' = { c with notify_state_callback := cb } := by
  rcases cb with _ | k
  · simp [binc_characteristic_set_notifying_state_change_callback] at h
  · simp only [binc_characteristic_set_notifying_state_change_callback,
      Option.some.injEq] at h
    exact h.symm

lemma read_some_state {c c' : Characteristic} {acts : List Action}
    (h : binc_characteristic_read c = some (c', acts)) : c' = c := by
  unfold binc_characteristic_read at h
  split at h
  · simp only [Option.some.injEq, Prod.mk.injEq] at h
    exact h.1.symm
  · simp at h

lemma write_some_state {c c' : Characteristic} {acts : List Action}
    {byteArray : List Nat} {wt : WriteType}
    (h : binc_characteristic_write c byteArray wt = some (c', acts)) : c' = c := by
  unfold binc_characteristic_write at h
  split at h
  · simp only [Option.some.injEq, Prod.mk.injEq] at h
    exact h.1.symm
  · simp at h

lemma start_notify_some_state {c c' : Characteristic} {acts : List Action}
    {newHandle : Nat}
    (h : binc_characteristic_start_notify c newHandle = some (c', acts)) :
    c' = { c with characteristic_prop_changed := newHandle } := by
  unfold binc_characteristic_start_notify at h
  split at h
  · simp only [Option.some.injEq, Prod.mk.injEq] at h
    exact h.1.symm
  · simp at h

lemma stop_notify_some_state {c c' : Characteristic} {acts : List Action}
    (h : binc_characteristic_stop_notify c = some (c', acts)) : c' = c := by
  unfold binc_characteristic_stop_notify at h
  split at h
  · simp only [Option.some.injEq, Prod.mk.injEq] at h
    exact h.1.symm
  · simp at h

lemma read_cb_state (c : Characteristic) (r : Except GError (List Nat)) :
    (binc_internal_char_read_cb c r).1 = c := by
  cases r <;> rcases h : c.on_read_callback with _ | cb <;>
    simp [binc_internal_char_read_cb, h]

lemma write_cb_state (c : Characteristic) (r : Except GError Unit) :
    (binc_internal_char_write_cb c r).1 = c := by
  cases r <;> rcases h : c.on_write_callback with _ | cb <;>
    simp [binc_internal_char_write_cb, h]

lemma start_notify_cb_state (c : Characteristic) (r : Except GError Unit) :
    (binc_internal_char_start_notify_cb c r).1 = c := by
  cases r <;> rcases h : c.notify_state_callback with _ | cb <;>
    simp [binc_internal_char_start_notify_cb, h]

lemma stop_notify_cb_state (c : Characteristic) (r : Except GError Unit) :
    (binc_internal_char_stop_notify_cb c r).1 = c := by
  cases r <;> rcases h : c.notify_state_callback with _ | cb <;>
    simp [binc_internal_char_stop_notify_cb, h]

lemma handle_property_value_state (c : Characteristic) (byteArray : List Nat) :
    (binc_internal_handle_property c (PropChange.value byteArray)).1 = c := by
  rcases h : c.on_notify_callback with _ | cb <;>
    simp [binc_internal_handle_property, h]

lemma handle_property_other_state (c : Characteristic) (s : String) :
    (binc_internal_handle_property c (PropChange.other s)).1 = c := rfl

lemma handle_property_notifying_true (c : Characteristic) :
    (binc_internal_handle_property c (PropChange.notifying true)).1 =
      { c with notifying := true } := by
  rcases h : c.notify_state_callback with _ | cb <;>
    simp [binc_internal_handle_property, h]

lemma handle_property_notifying_false (c : Characteristic) :
    (binc_internal_handle_property c (PropChange.notifying false)).1 =
      if c.characteristic_prop_changed ≠ 0 then
        { c with notifying := false, characteristic_prop_changed := 0 }
      else { c with notifying := false } := by
  by_cases hh : c.characteristic_prop_changed ≠ 0 <;>
    rcases h : c.notify_state_callback with _ | cb <;>
    simp [binc_internal_handle_property, h, hh]

lemma signal_changed_cons (c : Characteristic) (p : PropChange)
    (rest : List PropChange) :
    binc_internal_signal_characteristic_changed c (p :: rest) =
      ((binc_internal_signal_characteristic_changed
          (binc_internal_handle_property c p).1 rest).1,
        (binc_internal_handle_property c p).2 ++
          (binc_internal_signal_characteristic_changed
            (binc_internal_handle_property c p).1 rest).2) := rfl

/-- Inductive core of the C1 invariant: processing one PropertiesChanged
event with pairwise distinct keys preserves "notifying implies a live
subscription handle", provided the handle is live on entry or the event
does not mention Notifying. -/
lemma signal_changed_preserves (props : List PropChange) :
    ∀ c : Characteristic,
      (props.map PropChange.name).Nodup →
      (c.characteristic_prop_changed ≠ 0 ∨ "Notifying" ∉ props.map PropChange.name) →
      (c.notifying = true → c.characteristic_prop_changed ≠ 0) →
      ((binc_internal_signal_characteristic_changed c props).1.notifying = true →
        (binc_internal_signal_characteristic_changed c props).1.characteristic_prop_changed ≠ 0) := by
  induction props with
  | nil => intro c _ _ hq; exact hq
  | cons p rest ih =>
    intro c hnd hin hq
    have hnd2 : (rest.map PropChange.name).Nodup := by
      simp only [List.map_cons, List.nodup_cons] at hnd
      exact hnd.2
    have hhead : PropChange.name p ∉ rest.map PropChange.name := by
      simp only [List.map_cons, List.nodup_cons] at hnd
      exact hnd.1
    have hin2 : "Notifying" ∉ p.name :: rest.map PropChange.name →
        "Notifying" ∉ rest.map PropChange.name :=
      fun hno hmem => hno (List.mem_cons_of_mem _ hmem)
    rw [signal_changed_cons]
    rcases p with b | byteArray | s
    · cases b
      · rw [handle_property_notifying_false]
        by_cases hh : c.characteristic_prop_changed ≠ 0
        · rw [if_pos hh]
          refine ih _ hnd2 (Or.inr ?_) (by simp)
          simpa using hhead
        · rw [if_neg hh]
          refine ih _ hnd2 (Or.inr ?_) (by simp)
          simpa using hhead
      · rw [handle_property_notifying_true]
        have hc : c.characteristic_prop_changed ≠ 0 := by
          rcases hin with hl | hr
          · exact hl
          · exact absurd (by simp [PropChange.name]) hr
        exact ih _ hnd2 (Or.inl (by simpa using hc)) (fun _ => by simpa using hc)
    · rw [handle_property_value_state]
      refine ih _ hnd2 ?_ hq
      rcases hin with hl | hr
      · exact Or.inl hl
      · exact Or.inr (hin2 (by simpa using hr))
    · rw [handle_property_other_state]
      refine ih _ hnd2 ?_ hq
      rcases hin with hl | hr
      · exact Or.inl hl
      · exact Or.inr (hin2 (by simpa using hr))

/-- Every reachable state satisfies the C1 invariant. -/
lemma reach_notifying_subscribed {c : Characteristic} (hr : Reach c) :
    c.notifying = true → c.characteristic_prop_changed ≠ 0 := by
  induction hr with
  | create d path => intro h; simp [binc_characteristic_create] at h
  | set_uuid u _ ih => simpa [binc_characteristic_set_uuid] using ih
  | set_service_uuid u _ ih => simpa [binc_characteristic_set_service_uuid] using ih
  | set_service_path p _ ih => simpa [binc_characteristic_set_service_path] using ih
  | set_flags fl _ heq ih => rw [set_flags_some heq]; simpa using ih
  | set_properties p _ ih => simpa [binc_characteristic_set_properties] using ih
  | set_read_callback cb _ heq ih => rw [set_read_callback_some heq]; simpa using ih
  | set_write_callback cb _ heq ih => rw [set_write_callback_some heq]; simpa using ih
  | set_notify_callback cb _ heq ih => rw [set_notify_callback_some heq]; simpa using ih
  | set_notify_state_callback cb _ heq ih =>
      rw [set_notify_state_callback_some heq]; simpa using ih
  | read _ heq ih => rw [read_some_state heq]; exact ih
  | write byteArray wt _ heq ih => rw [write_some_state heq]; exact ih
  | read_cb result _ ih => rw [read_cb_state]; exact ih
  | write_cb result _ ih => rw [write_cb_state]; exact ih
  | start_notify newHandle _ hnz heq ih =>
      rw [start_notify_some_state heq]; intro _; simpa using hnz
  | start_notify_cb result _ ih => rw [start_notify_cb_state]; exact ih
  | stop_notify _ heq ih => rw [stop_notify_some_state heq]; exact ih
  | stop_notify_cb result _ ih => rw [stop_notify_cb_state]; exact ih
  | signal props _ hnz hnd ih => exact signal_changed_preserves props _ hnd (Or.inl hnz) ih

/-- State of `demoSubscribed` after a Notifying = true event: a reachable
state with `notifying` set. -/
lemma demo_reach_notifying : Reach demoNotifying := by
  have h0 : Reach demoC0 :=
    Reach.create demoDevice "/org/bluez/hci0/dev00/service01/char002"
  have h1 : Reach demoNotifyCapable := Reach.set_flags ["notify"] h0 (by decide)
  have heq : binc_characteristic_start_notify demoNotifyCapable 5 =
      some (demoSubscribed,
        [Action.signalSubscribe 5, Action.dbusCall "StartNotify"]) := by decide
  have h2 : Reach demoSubscribed := Reach.start_notify 5 h1 (by decide) heq
  have h3 := Reach.signal [PropChange.notifying true] h2 (by decide) (by decide)
  have he : (binc_internal_signal_characteristic_changed demoSubscribed
      [PropChange.notifying true]).1 = demoNotifying := by decide
  rwa [he] at h3

/-- C1: in every reachable state, `notifying = true` implies a live
property-change subscription handle; and a PropertiesChanged event
reporting Notifying = false clears the handle and performs the underlying
unsubscribe exactly once, with no stop-notify call involved. -/
theorem notifying_implies_live_subscription :
    (∀ c : Characteristic, Reach c → c.notifying = true →
      c.characteristic_prop_changed ≠ 0) ∧
    (∀ c : Characteristic, c.characteristic_prop_changed ≠ 0 →
      (binc_internal_signal_characteristic_changed c
          [PropChange.notifying false]).1.characteristic_prop_changed = 0 ∧
      List.count (Action.signalUnsubscribe c.characteristic_prop_changed)
        (binc_internal_signal_characteristic_changed c
          [PropChange.notifying false]).2 = 1) := by
  constructor
  · intro c hr
    exact reach_notifying_subscribed hr
  · intro c hnz
    rcases hcb : c.notify_state_callback with _ | cb <;>
      simp [binc_internal_signal_characteristic_changed,
        binc_internal_handle_property, hcb, hnz]

/-- C1 witness: a concrete reachable notifying state whose handle is live,
and the concrete eager release on the Notifying = false event. -/
theorem notifying_implies_live_subscription_witness :
    demoNotifying.characteristic_prop_changed ≠ 0 ∧
    ((binc_internal_signal_characteristic_changed demoNotifying
        [PropChange.notifying false]).1.characteristic_prop_changed = 0 ∧
      List.count (Action.signalUnsubscribe demoNotifying.characteristic_prop_changed)
        (binc_internal_signal_characteristic_changed demoNotifying
          [PropChange.notifying false]).2 = 1) :=
  ⟨notifying_implies_live_subscription.1 demoNotifying demo_reach_notifying rfl,
   notifying_implies_live_subscription.2 demoNotifying (by decide)⟩

/-- C2: whenever start-notify is accepted, its effect trace is exactly the
signal subscription followed by the StartNotify remote call — the
subscribe strictly precedes the dispatch — and the new state stores the
subscription handle. -/
theorem subscribe_precedes_start_notify (c : Characteristic) (newHandle : Nat)
    (hs : binc_characteristic_supports_notify c = true) :
    binc_characteristic_start_notify c newHandle =
      some ({ c with characteristic_prop_changed := newHandle },
        [Action.signalSubscribe newHandle, Action.dbusCall "StartNotify"]) ∧
    List.indexOf (Action.signalSubscribe newHandle)
        [Action.signalSubscribe newHandle, Action.dbusCall "StartNotify"] <
      List.indexOf (Action.dbusCall "StartNotify")
        [Action.signalSubscribe newHandle, Action.dbusCall "StartNotify"] := by
  constructor
  · simp [binc_characteristic_start_notify, hs]
  · simp [List.indexOf_cons]

/-- C2 witness: the concrete notify-capable characteristic. -/
theorem subscribe_precedes_start_notify_witness :
    binc_characteristic_start_notify demoNotifyCapable 5 =
      some ({ demoNotifyCapable with characteristic_prop_changed := 5 },
        [Action.signalSubscribe 5, Action.dbusCall "StartNotify"]) ∧
    List.indexOf (Action.signalSubscribe 5)
        [Action.signalSubscribe 5, Action.dbusCall "StartNotify"] <
      List.indexOf (Action.dbusCall "StartNotify")
        [Action.signalSubscribe 5, Action.dbusCall "StartNotify"] :=
  subscribe_precedes_start_notify demoNotifyCapable 5 (by decide)

/-- C3 counterexample: on the duplicate token list ["read", "read"] the
source adds the read bit twice and stores properties = 4, while the
bitwise OR of the bit values of the recognized tokens present is 2; the
claimed identity fails in this state. -/
theorem duplicate_flag_breaks_or_bitmask :
    binc_characteristic_set_flags demoC0 ["read", "read"] =
      some { demoC0 with flags := ["read", "read"], properties := 4 } ∧
    spec_properties ["read", "read"] = 2 ∧ (4 : Nat) ≠ 2 := by
  refine ⟨by decide, by decide, by decide⟩

/-- C3 (amended): after any accepted `set_flags` whose flag list carries no
duplicate token, `properties` is exactly the bitwise OR of the fixed
per-flag bit values of the recognized tokens present, independent of token
order; unrecognized tokens contribute zero. -/
theorem set_flags_properties_is_or (c : Characteristic) (t : String)
    (ts : List String) (hnd : (t :: ts).Nodup) :
    binc_characteristic_set_flags c (t :: ts) =
      some { c with flags := t :: ts, properties := spec_properties (t :: ts) } ∧
    (∀ fl2 : List String, fl2.Perm (t :: ts) →
      binc_characteristic_flags_to_int fl2 = spec_properties (t :: ts)) ∧
    (∀ (u : String) (fl : List String), flagBitValue u = 0 →
      binc_characteristic_flags_to_int (u :: fl) =
        binc_characteristic_flags_to_int fl) := by
  refine ⟨?_, ?_, ?_⟩
  · simp only [binc_characteristic_set_flags, Option.some.injEq]
    rw [flags_to_int_nodup_eq_spec _ hnd]
  · intro fl2 hp
    rw [flags_to_int_perm hp, flags_to_int_nodup_eq_spec _ hnd]
  · intro u fl hu
    rw [flags_to_int_cons, hu, Nat.zero_add]

/-- C3 witness: concrete duplicate-free flag list, also permuted. -/
theorem set_flags_properties_is_or_witness :
    binc_characteristic_set_flags demoC0 ["read", "notify"] =
      some { demoC0 with flags := ["read", "notify"]
                         properties := spec_properties ["read", "notify"] } ∧
    binc_characteristic_flags_to_int ["notify", "read"] =
      spec_properties ["read", "notify"] :=
  ⟨(set_flags_properties_is_or demoC0 "read" ["notify"] (by decide)).1,
   (set_flags_properties_is_or demoC0 "read" ["notify"] (by decide)).2.1
     ["notify", "read"] (by decide)⟩

/-- C4: stop-notify leaves the state (subscription handle, `notifying`)
untouched and emits no unsubscribe; so does its completion handler for any
result; only the Notifying = false property-change event clears the
handle. -/
theorem stop_notify_preserves_subscription :
    (∀ (c c' : Characteristic) (acts : List Action),
      binc_characteristic_stop_notify c = some (c', acts) →
      c' = c ∧ ∀ h : Nat, Action.signalUnsubscribe h ∉ acts) ∧
    (∀ (c : Characteristic) (result : Except GError Unit),
      (binc_internal_char_stop_notify_cb c result).1 = c ∧
      ∀ h : Nat, Action.signalUnsubscribe h ∉
        (binc_internal_char_stop_notify_cb c result).2) ∧
    (∀ c : Characteristic, c.characteristic_prop_changed ≠ 0 →
      (binc_internal_signal_characteristic_changed c
        [PropChange.notifying false]).1.characteristic_prop_changed = 0) := by
  refine ⟨?_, ?_, ?_⟩
  · intro c c' acts heq
    have hc := stop_notify_some_state heq
    subst hc
    unfold binc_characteristic_stop_notify at heq
    split at heq
    · simp only [Option.some.injEq, Prod.mk.injEq] at heq
      refine ⟨rfl, ?_⟩
      rw [← heq.2]
      intro h
      simp
    · simp at heq
  · intro c result
    refine ⟨stop_notify_cb_state c result, ?_⟩
    intro h
    cases result <;> rcases hcb : c.notify_state_callback with _ | cb <;>
      simp [binc_internal_char_stop_notify_cb, hcb]
  · intro c hnz
    rcases hcb : c.notify_state_callback with _ | cb <;>
      simp [binc_internal_signal_characteristic_changed,
        binc_internal_handle_property, hcb, hnz]

/-- C4 witness: concrete stop-notify call and failing completion. -/
theorem stop_notify_preserves_subscription_witness :
    (Action.signalUnsubscribe 5 ∉ [Action.dbusCall "StopNotify"]) ∧
    ((binc_internal_char_stop_notify_cb demoWithStateCb (Except.error demoErr)).1 =
      demoWithStateCb) ∧
    (binc_internal_signal_characteristic_changed demoSubscribed
      [PropChange.notifying false]).1.characteristic_prop_changed = 0 :=
  ⟨(stop_notify_preserves_subscription.1 demoSubscribed demoSubscribed
      [Action.dbusCall "StopNotify"] (by decide)).2 5,
   (stop_notify_preserves_subscription.2.1 demoWithStateCb (Except.error demoErr)).1,
   stop_notify_preserves_subscription.2.2 demoSubscribed (by decide)⟩

/-- C5: when the StartNotify call finishes with an error and a notify-state
callback is registered, that callback is invoked exactly once with the
transport error, and the state — including the registered subscription
handle — is left unchanged (no rollback). -/
theorem start_notify_failure_reports_error_once (c : Characteristic) (cb : Nat)
    (e : GError) (hreg : c.notify_state_callback = some cb) :
    (binc_internal_char_start_notify_cb c (Except.error e)).1 = c ∧
    (binc_internal_char_start_notify_cb c (Except.error e)).2 =
      [Action.invokeNotifyStateCb cb (some e)] := by
  simp [binc_internal_char_start_notify_cb, hreg]

/-- C5 witness: concrete subscribed characteristic with callback slot 9. -/
theorem start_notify_failure_reports_error_once_witness :
    (binc_internal_char_start_notify_cb demoWithStateCb (Except.error demoErr)).1 =
      demoWithStateCb ∧
    (binc_internal_char_start_notify_cb demoWithStateCb (Except.error demoErr)).2 =
      [Action.invokeNotifyStateCb 9 (some demoErr)] :=
  start_notify_failure_reports_error_once demoWithStateCb 9 demoErr rfl

/-- C6: a completed read invokes the registered read callback exactly once —
with the decoded byte sequence and no error on success, with no payload and
the transport error on failure — and invokes nothing when no read callback
is registered. -/
theorem read_completion_invokes_callback_once (c : Characteristic)
    (byteArray : List Nat) (e : GError) :
    (∀ cb : Nat, c.on_read_callback = some cb →
      (binc_internal_char_read_cb c (Except.ok byteArray)).2 =
        [Action.invokeReadCb cb (some byteArray) none] ∧
      (binc_internal_char_read_cb c (Except.error e)).2 =
        [Action.invokeReadCb cb none (some e)]) ∧
    (c.on_read_callback = none →
      (binc_internal_char_read_cb c (Except.ok byteArray)).2 = [] ∧
      (binc_internal_char_read_cb c (Except.error e)).2 = []) := by
  constructor
  · intro cb hreg
    constructor <;> simp [binc_internal_char_read_cb, hreg]
  · intro hnone
    constructor <;> simp [binc_internal_char_read_cb, hnone]

/-- C6 witness: concrete characteristics with and without a read callback. -/
theorem read_completion_invokes_callback_once_witness :
    ((binc_internal_char_read_cb demoWithReadCb (Except.ok [1, 2])).2 =
      [Action.invokeReadCb 3 (some [1, 2]) none] ∧
     (binc_internal_char_read_cb demoWithReadCb (Except.error demoErr)).2 =
      [Action.invokeReadCb 3 none (some demoErr)]) ∧
    (binc_internal_char_read_cb demoC0 (Except.ok [1, 2])).2 = [] :=
  ⟨(read_completion_invokes_callback_once demoWithReadCb [1, 2] demoErr).1 3 rfl,
   ((read_completion_invokes_callback_once demoC0 [1, 2] demoErr).2 rfl).1⟩

/-- C7: release of the subscription handle is guarded on a non-zero handle
and clears it, so releasing once reactively (Notifying = false event) and
once at teardown performs the underlying unsubscribe exactly once — the
second release is a no-op. -/
theorem subscription_release_idempotent :
    (∀ c : Characteristic, c.characteristic_prop_changed ≠ 0 →
      binc_characteristic_free c =
        [Action.signalUnsubscribe c.characteristic_prop_changed]) ∧
    (∀ c : Characteristic, c.characteristic_prop_changed = 0 →
      binc_characteristic_free c = []) ∧
    (∀ c : Characteristic, c.characteristic_prop_changed ≠ 0 →
      binc_characteristic_free
        (binc_internal_signal_characteristic_changed c
          [PropChange.notifying false]).1 = [] ∧
      List.count (Action.signalUnsubscribe c.characteristic_prop_changed)
        ((binc_internal_signal_characteristic_changed c
            [PropChange.notifying false]).2 ++
          binc_characteristic_free
            (binc_internal_signal_characteristic_changed c
              [PropChange.notifying false]).1) = 1) := by
  refine ⟨?_, ?_, ?_⟩
  · intro c hnz
    simp [binc_characteristic_free, hnz]
  · intro c hz
    simp [binc_characteristic_free, hz]
  · intro c hnz
    rcases hcb : c.notify_state_callback with _ | cb <;>
      simp [binc_internal_signal_characteristic_changed,
        binc_internal_handle_property, binc_characteristic_free, hcb, hnz]

/-- C7 witness: concrete subscribed state released twice. -/
theorem subscription_release_idempotent_witness :
    binc_characteristic_free demoSubscribed = [Action.signalUnsubscribe 5] ∧
    (binc_characteristic_free
        (binc_internal_signal_characteristic_changed demoSubscribed
          [PropChange.notifying false]).1 = [] ∧
      List.count (Action.signalUnsubscribe demoSubscribed.characteristic_prop_changed)
        ((binc_internal_signal_characteristic_changed demoSubscribed
            [PropChange.notifying false]).2 ++
          binc_characteristic_free
            (binc_internal_signal_characteristic_changed demoSubscribed
              [PropChange.notifying false]).1) = 1) :=
  ⟨subscription_release_idempotent.1 demoSubscribed (by decide),
   subscription_release_idempotent.2.2 demoSubscribed (by decide)⟩

/-- C8 counterexample: registering a NULL callback does not clear the slot;
it is a fatal assertion failure, so interest cannot be removed this way. -/
theorem null_callback_registration_aborts :
    binc_characteristic_set_read_callback demoC0 none = none := rfl

/-- C8 (amended): each of the four registration points is a single slot with
last-registered-wins semantics among non-NULL callbacks; registering a NULL
callback is a fatal precondition violation rather than a removal mechanism;
and a completion that finds an empty slot (never registered) invokes
nothing. -/
theorem callback_slot_semantics :
    (∀ (c : Characteristic) (k1 k2 : Nat),
      (binc_characteristic_set_read_callback c (some k1)).bind
        (fun c1 => binc_characteristic_set_read_callback c1 (some k2)) =
        some { c with on_read_callback := some k2 } ∧
      (binc_characteristic_set_write_callback c (some k1)).bind
        (fun c1 => binc_characteristic_set_write_callback c1 (some k2)) =
        some { c with on_write_callback := some k2 } ∧
      (binc_characteristic_set_notify_callback c (some k1)).bind
        (fun c1 => binc_characteristic_set_notify_callback c1 (some k2)) =
        some { c with on_notify_callback := some k2 } ∧
      (binc_characteristic_set_notifying_state_change_callback c (some k1)).bind
        (fun c1 => binc_characteristic_set_notifying_state_change_callback c1 (some k2)) =
        some { c with notify_state_callback := some k2 }) ∧
    (∀ c : Characteristic,
      binc_characteristic_set_read_callback c none = none ∧
      binc_characteristic_set_write_callback c none = none ∧
      binc_characteristic_set_notify_callback c none = none ∧
      binc_characteristic_set_notifying_state_change_callback c none = none) ∧
    (∀ (c : Characteristic) (byteArray : List Nat) (e : GError),
      (c.on_read_callback = none →
        (binc_internal_char_read_cb c (Except.ok byteArray)).2 = [] ∧
        (binc_internal_char_read_cb c (Except.error e)).2 = []) ∧
      (c.on_write_callback = none →
        (binc_internal_char_write_cb c (Except.ok ())).2 = [] ∧
        (binc_internal_char_write_cb c (Except.error e)).2 = []) ∧
      (c.notify_state_callback = none →
        (binc_internal_char_start_notify_cb c (Except.error e)).2 = [] ∧
        (binc_internal_char_stop_notify_cb c (Except.error e)).2 = []) ∧
      (c.on_notify_callback = none →
        (binc_internal_handle_property c (PropChange.value byteArray)).2 = [])) := by
  refine ⟨?_, ?_, ?_⟩
  · intro c k1 k2
    refine ⟨rfl, rfl, rfl, rfl⟩
  · intro c
    refine ⟨rfl, rfl, rfl, rfl⟩
  · intro c byteArray e
    refine ⟨?_, ?_, ?_, ?_⟩
    · intro hnone
      constructor <;> simp [binc_internal_char_read_cb, hnone]
    · intro hnone
      constructor <;> simp [binc_internal_char_write_cb, hnone]
    · intro hnone
      constructor <;>
        simp [binc_internal_char_start_notify_cb,
          binc_internal_char_stop_notify_cb, hnone]
    · intro hnone
      simp [binc_internal_handle_property, hnone]

/-- C8 witness: concrete fresh characteristic (all slots empty). -/
theorem callback_slot_semantics_witness :
    (binc_characteristic_set_read_callback demoC0 (some 3)).bind
      (fun c1 => binc_characteristic_set_read_callback c1 (some 4)) =
      some { demoC0 with on_read_callback := some 4 } ∧
    binc_characteristic_set_write_callback demoC0 none = none ∧
    (binc_internal_char_read_cb demoC0 (Except.ok [1, 2])).2 = [] ∧
    (binc_internal_handle_property demoC0 (PropChange.value [1, 2])).2 = [] :=
  ⟨(callback_slot_semantics.1 demoC0 3 4).1,
   (callback_slot_semantics.2.1 demoC0).2.1,
   ((callback_slot_semantics.2.2 demoC0 [1, 2] demoErr).1 rfl).1,
   (callback_slot_semantics.2.2 demoC0 [1, 2] demoErr).2.2.2 rfl⟩

/-- C9: `set_flags` with an empty flag list is a fatal precondition
violation (an empty GList is NULL, so the non-null assertion aborts), and
any non-empty flag list is accepted, replacing the previous set and
recomputing the bitmask. -/
theorem set_flags_rejects_empty (c : Characteristic) :
    binc_characteristic_set_flags c [] = none ∧
    ∀ (t : String) (ts : List String),
      binc_characteristic_set_flags c (t :: ts) =
        some { c with flags := t :: ts
                      properties := binc_characteristic_flags_to_int (t :: ts) } :=
  ⟨rfl, fun _ _ => rfl⟩

/-- C10: a freshly created characteristic has notifying = false,
properties = 0, an empty flag set, no subscription handle, no callbacks,
and no identity strings; only the device back-reference, its D-Bus
connection and the object path are set. -/
theorem create_initial_state (d : Device) (path : String) :
    (binc_characteristic_create d path).notifying = false ∧
    (binc_characteristic_create d path).properties = 0 ∧
    (binc_characteristic_create d path).flags = [] ∧
    (binc_characteristic_create d path).characteristic_prop_changed = 0 ∧
    (binc_characteristic_create d path).on_read_callback = none ∧
    (binc_characteristic_create d path).on_write_callback = none ∧
    (binc_characteristic_create d path).on_notify_callback = none ∧
    (binc_characteristic_create d path).notify_state_callback = none ∧
    (binc_characteristic_create d path).uuid = none ∧
    (binc_characteristic_create d path).service_uuid = none ∧
    (binc_characteristic_create d path).service_path = none ∧
    (binc_characteristic_create d path).device = d ∧
    (binc_characteristic_create d path).connection = d.dbus_connection ∧
    (binc_characteristic_create d path).path = path :=
  ⟨rfl, rfl, rfl, rfl, rfl, rfl, rfl, rfl, rfl, rfl, rfl, rfl, rfl, rfl⟩

end Binc
